import Mathlib

/-!
# Interrupt descriptors and PID namespaces: header-level functions

A shallow embedding of the inline functions and macros of
`include/linux/irqdesc.h` and `include/linux/pid_namespace.h`.

Conventions of the embedding:
* a C pointer is a `Nat` address, `0` is `NULL`;
* memory is a partial map from addresses to records; dereferencing `NULL`
  or an unmapped address is a fault, written `none`;
* an indirect call through a function pointer is recorded as a `Call`
  and its effect on memory is given by a table of handler bodies.
-/

namespace IrqDesc

/-! ## Data model (`include/linux/irqdesc.h`) -/

/-- The members of `struct irq_data` that `irqdesc.h` reads or writes
through `desc->irq_data` (the structure itself is declared in
`linux/irq.h`). -/
structure irq_data where
  chip : Nat
  chip_data : Nat
  handler_data : Nat
  msi_desc : Nat
deriving DecidableEq, Repr

/-- Interrupt descriptor, `struct irq_desc`, with the members of every
configuration option present. Pointers and embedded kernel objects are
addresses or abstract words; `kstat_irqs` is the per-CPU counter array,
one slot per CPU. -/
structure irq_desc where
  irq_common_data : Nat
  irq_data : irq_data
  kstat_irqs : List Nat
  handle_irq : Nat
  preflow_handler : Nat
  action : Nat
  status_use_accessors : Nat
  core_internal_state__do_not_mess_with_it : Nat
  depth : Nat
  wake_depth : Nat
  irq_count : Nat
  last_unhandled : Nat
  irqs_unhandled : Nat
  threads_handled : Int
  threads_handled_last : Int
  lock : Nat
  percpu_enabled : Nat
  affinity_hint : Nat
  affinity_notify : Nat
  pending_mask : Nat
  threads_oneshot : Nat
  threads_active : Int
  wait_for_threads : Nat
  nr_actions : Nat
  no_suspend_depth : Nat
  cond_suspend_depth : Nat
  force_resume_depth : Nat
  dir : Nat
  parent_irq : Int
  owner : Nat
  name : Nat
deriving DecidableEq, Repr

/-- Kernel state seen by the header: the descriptor table (interrupt
number to descriptor address, `0` when there is none) and the descriptor
storage, by address. -/
structure Kernel where
  table : Nat → Nat
  mem : Nat → Option irq_desc

/-- Modelled from the spec: `irq_to_desc` is used but not defined in the
header. Spec 4.1 `lookup(irq) -> Descriptor reference | absent`: a
non-allocating read of the descriptor table, `NULL` when absent. -/
def irq_to_desc (k : Kernel) (irq : Nat) : Nat := k.table irq

/-- Read the descriptor a pointer refers to; `NULL` and unmapped
addresses fault. -/
def deref (k : Kernel) (p : Nat) : Option irq_desc :=
  if p = 0 then none else k.mem p

/-- Write a descriptor back at address `p`. -/
def store (k : Kernel) (p : Nat) (d : irq_desc) : Kernel :=
  { k with mem := fun q => if q = p then some d else k.mem q }

/-- One indirect call `handler(irq, desc)` through a flow-handler pointer. -/
structure Call where
  handler : Nat
  irq : Nat
  desc : Nat
deriving DecidableEq, Repr

/-- The bodies of the flow handlers, indexed by the handler's address:
`flow h irq desc k` is the kernel state after `h(irq, desc)` ran from
state `k`. The handlers themselves live outside the header. -/
abbrev FlowBodies := Nat → Nat → Nat → Kernel → Kernel

/-- The per-CPU hit counter slot `cpu` of the descriptor at `p`. -/
def kstat_slot (k : Kernel) (p cpu : Nat) : Option Nat :=
  (deref k p).bind (fun d => d.kstat_irqs.get? cpu)

/-! ## Accessors -/

/-- Accessor `irq_desc_get_irq_data`: `&desc->irq_data`. -/
def irq_desc_get_irq_data (desc : irq_desc) : irq_data := desc.irq_data

/-- Accessor `irq_desc_get_chip`: `desc->irq_data.chip`. -/
def irq_desc_get_chip (desc : irq_desc) : Nat := desc.irq_data.chip

/-- Accessor `irq_desc_get_chip_data`: `desc->irq_data.chip_data`. -/
def irq_desc_get_chip_data (desc : irq_desc) : Nat := desc.irq_data.chip_data

/-- Accessor `irq_desc_get_handler_data`: `desc->irq_data.handler_data`. -/
def irq_desc_get_handler_data (desc : irq_desc) : Nat := desc.irq_data.handler_data

/-- Accessor `irq_desc_get_msi_desc`: `desc->irq_data.msi_desc`. -/
def irq_desc_get_msi_desc (desc : irq_desc) : Nat := desc.irq_data.msi_desc

/-! ## Dispatch -/

/-- The body of `generic_handle_irq_desc` is the single statement
`desc->handle_irq(irq, desc)`: load the handler pointer from the
descriptor and call it. The result is the list of indirect calls made by
this function, in order, and the state the callee leaves. A `NULL`
descriptor or handler pointer faults. -/
def generic_handle_irq_desc (flow : FlowBodies) (irq desc : Nat) (k : Kernel) :
    Option (List Call × Kernel) :=
  match deref k desc with
  | none => none
  | some d =>
    if d.handle_irq = 0 then none
    else some ([⟨d.handle_irq, irq, desc⟩], flow d.handle_irq irq desc k)

/-- Modelled from the spec: the hit-counter side effect of spec 4.2,
which the header does not contain: add one to the slot of `cpu` in the
per-CPU hit counters (`unsigned int`, so modulo `2^32`). -/
def hit_count_incr (cpu : Nat) (d : irq_desc) : irq_desc :=
  { d with kstat_irqs := d.kstat_irqs.set cpu ((d.kstat_irqs.getD cpu 0 + 1) % 2 ^ 32) }

/-- Modelled from the spec: `generic_handle_irq` is only declared in the
header. Spec 4.2 `dispatch(irq)`: look the descriptor up; an absent
descriptor is a fatal error with no recovery path; otherwise increment
the invoking core's slot in the hit counters and then invoke the
descriptor's flow handler with `(irq, descriptor)`. -/
def generic_handle_irq (flow : FlowBodies) (cpu irq : Nat) (k : Kernel) :
    Option (List Call × Kernel) :=
  let desc := irq_to_desc k irq
  match deref k desc with
  | none => none
  | some d => generic_handle_irq_desc flow irq desc (store k desc (hit_count_incr cpu d))

/-- Modelled from the spec: `__handle_domain_irq` is only declared in the
header. Spec 4.2 `dispatchViaDomain(domain, hwirq, doLookup, context)`:
when `doLookup` is true the Domain Translator `translate` converts
`hwirq`; a miss is reported as `InvalidMapping` (`-EINVAL`, per the
header comment) instead of dispatching; when `doLookup` is false, or the
domain is `NULL`, `hwirq` is already the logical number. A successful
dispatch returns `0`. The errno value `EINVAL` is a parameter. -/
def __handle_domain_irq (EINVAL : Int) (translate : Nat → Nat → Option Nat)
    (flow : FlowBodies) (cpu : Nat)
    (domain hwirq : Nat) (lookup : Bool) (_regs : Nat) (k : Kernel) :
    Option (Int × List Call × Kernel) :=
  let resolved : Option Nat :=
    if lookup = true ∧ domain ≠ 0 then translate domain hwirq else some hwirq
  match resolved with
  | none => some (-EINVAL, [], k)
  | some irq =>
    match generic_handle_irq flow cpu irq k with
    | none => none
    | some (calls, k1) => some (0, calls, k1)

/-- The inline wrapper `handle_domain_irq`:
`return __handle_domain_irq(domain, hwirq, true, regs);`. The external
function it calls is the first argument, `inner`. -/
def handle_domain_irq {α : Type} (inner : Nat → Nat → Bool → Nat → α)
    (domain hwirq regs : Nat) : α :=
  inner domain hwirq true regs

/-! ## Queries and setters -/

/-- Test `irq_has_action`: `desc = irq_to_desc(irq); return desc->action != NULL;`.
Returns the C truth value and the (untouched) state. -/
def irq_has_action (irq : Nat) (k : Kernel) : Option (Int × Kernel) :=
  let desc := irq_to_desc k irq
  match deref k desc with
  | none => none
  | some d => some (if d.action ≠ 0 then 1 else 0, k)

/-- Setter `__irq_set_handler_locked`:
`desc = irq_to_desc(irq); desc->handle_irq = handler;`. -/
def __irq_set_handler_locked (irq handler : Nat) (k : Kernel) : Option Kernel :=
  let desc := irq_to_desc k irq
  match deref k desc with
  | none => none
  | some d => some (store k desc { d with handle_irq := handler })

/-- Setter `__irq_set_chip_handler_name_locked`:
`desc = irq_to_desc(irq); irq_desc_get_irq_data(desc)->chip = chip;
desc->handle_irq = handler; desc->name = name;`. -/
def __irq_set_chip_handler_name_locked (irq chip handler name : Nat) (k : Kernel) :
    Option Kernel :=
  let desc := irq_to_desc k irq
  match deref k desc with
  | none => none
  | some d =>
    let d1 := { d with irq_data := { irq_desc_get_irq_data d with chip := chip } }
    let d2 := { d1 with handle_irq := handler }
    some (store k desc { d2 with name := name })

/-- Setter `__irq_set_preflow_handler` (CONFIG_IRQ_PREFLOW_FASTEOI):
`desc = irq_to_desc(irq); desc->preflow_handler = handler;`. -/
def __irq_set_preflow_handler (irq handler : Nat) (k : Kernel) : Option Kernel :=
  let desc := irq_to_desc k irq
  match deref k desc with
  | none => none
  | some d => some (store k desc { d with preflow_handler := handler })

/-! ## Sample state -/

/-- A descriptor of a two-CPU machine with flow handler `7`, chip `11`,
one action and both hit counters at zero. -/
def sample_desc : irq_desc :=
  { irq_common_data := 0, irq_data := ⟨11, 12, 13, 14⟩, kstat_irqs := [0, 0],
    handle_irq := 7, preflow_handler := 0, action := 900,
    status_use_accessors := 0, core_internal_state__do_not_mess_with_it := 0,
    depth := 0, wake_depth := 0, irq_count := 0, last_unhandled := 0,
    irqs_unhandled := 0, threads_handled := 0, threads_handled_last := 0,
    lock := 0, percpu_enabled := 0, affinity_hint := 0, affinity_notify := 0,
    pending_mask := 0, threads_oneshot := 0, threads_active := 0,
    wait_for_threads := 0, nr_actions := 1, no_suspend_depth := 0,
    cond_suspend_depth := 0, force_resume_depth := 0, dir := 0,
    parent_irq := 0, owner := 0, name := 500 }

/-- A kernel whose only descriptor is `sample_desc`, at address `4096`,
registered for interrupt `5`. -/
def sample_kernel : Kernel :=
  { table := fun irq => if irq = 5 then 4096 else 0,
    mem := fun p => if p = 4096 then some sample_desc else none }

/-- A handler table in which every flow handler returns at once. -/
def idle_flow : FlowBodies := fun _ _ _ k => k

/-- A handler table in which every flow handler adds one to the hit
counter of CPU `0` of the descriptor it is called on. -/
def counting_flow : FlowBodies := fun _ _ desc k =>
  match deref k desc with
  | none => k
  | some d => store k desc (hit_count_incr 0 d)

/-- A translator that knows only hardware line `32` of domain `1`, mapped
to interrupt `5`. -/
def sample_translate (domain hwirq : Nat) : Option Nat :=
  if domain = 1 ∧ hwirq = 32 then some 5 else none

end IrqDesc

namespace PidNs

/-! ## Data model (`include/linux/pid_namespace.h`) -/

/-- One page of the pid bitmap, `struct pidmap`. -/
structure pidmap where
  nr_free : Int
  page : Nat
deriving DecidableEq, Repr

/-- Macro `BITS_PER_PAGE`: `(PAGE_SIZE * 8)` in `unsigned long`
arithmetic of `BITS_PER_LONG` bits. `PAGE_SIZE` comes from the
architecture headers and is a parameter. -/
def BITS_PER_PAGE (BITS_PER_LONG PAGE_SIZE : Nat) : Nat :=
  (PAGE_SIZE * 8) % 2 ^ BITS_PER_LONG

/-- Macro `BITS_PER_PAGE_MASK`: `(BITS_PER_PAGE-1)`. -/
def BITS_PER_PAGE_MASK (BITS_PER_LONG PAGE_SIZE : Nat) : Nat :=
  (BITS_PER_PAGE BITS_PER_LONG PAGE_SIZE + 2 ^ BITS_PER_LONG - 1) % 2 ^ BITS_PER_LONG

/-- Macro `PIDMAP_ENTRIES`:
`((PID_MAX_LIMIT+BITS_PER_PAGE-1)/BITS_PER_PAGE)`, evaluated left to
right in `unsigned long` arithmetic. `PID_MAX_LIMIT` comes from
`linux/threads.h` and is a parameter. -/
def PIDMAP_ENTRIES (BITS_PER_LONG PAGE_SIZE PID_MAX_LIMIT : Nat) : Nat :=
  (((PID_MAX_LIMIT + BITS_PER_PAGE BITS_PER_LONG PAGE_SIZE) % 2 ^ BITS_PER_LONG
      + 2 ^ BITS_PER_LONG - 1) % 2 ^ BITS_PER_LONG)
    / BITS_PER_PAGE BITS_PER_LONG PAGE_SIZE

/-- Macro `PIDNS_HASH_ADDING`: `(1U << 31)`. -/
def PIDNS_HASH_ADDING : Nat := 2 ^ 31

/-- A PID namespace, `struct pid_namespace`, with the members of every
configuration option present. `kref` is the reference counter of the
embedded `struct kref` (an `atomic_t`, kept modulo `2^32`). -/
structure pid_namespace where
  kref : Nat
  pidmap : List pidmap
  rcu : Nat
  last_pid : Int
  nr_hashed : Nat
  child_reaper : Nat
  pid_cachep : Nat
  level : Nat
  parent : Nat
  proc_mnt : Nat
  proc_self : Nat
  proc_thread_self : Nat
  bacct : Nat
  user_ns : Nat
  proc_work : Nat
  pid_gid : Nat
  hide_pid : Int
  reboot : Int
  ns : Nat
deriving DecidableEq, Repr

/-- Namespace storage, by address. -/
abbrev PidMem := Nat → Option pid_namespace

/-- Modelled from the spec: `kref_get` comes from `linux/kref.h`, outside
this header. Taking a reference adds one to the counter of the `kref`
embedded in the namespace at `ns`, and touches nothing else; a `NULL`
or unmapped namespace faults. -/
def kref_get (ns : Nat) (m : PidMem) : Option PidMem :=
  if ns = 0 then none
  else
    match m ns with
    | none => none
    | some n =>
      some (fun q => if q = ns then some { n with kref := (n.kref + 1) % 2 ^ 32 } else m q)

/-- Both variants of `get_pid_ns`. With `CONFIG_PID_NS`:
`if (ns != &init_pid_ns) kref_get(&ns->kref); return ns;`.
Without: `return ns;`. `init_pid_ns` is the address of the initial
namespace. -/
def get_pid_ns (CONFIG_PID_NS : Bool) (init_pid_ns : Nat) (ns : Nat) (m : PidMem) :
    Option (Nat × PidMem) :=
  if CONFIG_PID_NS = true then
    if ns ≠ init_pid_ns then
      match kref_get ns m with
      | none => none
      | some m1 => some (ns, m1)
    else some (ns, m)
  else some (ns, m)

/-- The `!CONFIG_PID_NS` stub of `copy_pid_ns`:
`if (flags & CLONE_NEWPID) ns = ERR_PTR(-EINVAL); return ns;`.
`CLONE_NEWPID` (`linux/sched.h`), `ERR_PTR` (`linux/err.h`) and `EINVAL`
are parameters. -/
def copy_pid_ns (CLONE_NEWPID : Nat) (ERR_PTR : Int → Nat) (EINVAL : Int)
    (flags _user_ns ns : Nat) (m : PidMem) : Nat × PidMem :=
  let ns := if flags &&& CLONE_NEWPID ≠ 0 then ERR_PTR (-EINVAL) else ns
  (ns, m)

/-- The `!CONFIG_PID_NS` stub of `put_pid_ns`: empty body. -/
def put_pid_ns (_ns : Nat) (m : PidMem) : PidMem := m

/-- The `!CONFIG_PID_NS` stub of `zap_pid_ns_processes`: `BUG();`,
which never returns. -/
def zap_pid_ns_processes (_ns : Nat) (_m : PidMem) : Option PidMem := none

/-- The `!CONFIG_PID_NS` stub of `reboot_pid_ns`: `return 0;`. -/
def reboot_pid_ns (_pid_ns : Nat) (_cmd : Int) (m : PidMem) : Int × PidMem := (0, m)

/-! ## Sample state and parameter values (64-bit Linux 4.1) -/

/-- A namespace with two references held. -/
def sample_ns : pid_namespace :=
  { kref := 2, pidmap := [], rcu := 0, last_pid := 300, nr_hashed := 1,
    child_reaper := 0, pid_cachep := 0, level := 1, parent := 8192,
    proc_mnt := 0, proc_self := 0, proc_thread_self := 0, bacct := 0,
    user_ns := 0, proc_work := 0, pid_gid := 0, hide_pid := 0, reboot := 0,
    ns := 0 }

/-- Namespace storage holding the initial namespace at `8192` and
`sample_ns` at `12288`. -/
def sample_mem : PidMem := fun p =>
  if p = 8192 then some { sample_ns with level := 0, parent := 0 }
  else if p = 12288 then some sample_ns
  else none

/-- Flag `CLONE_NEWPID` of `linux/sched.h`: `0x20000000`. -/
def linux_CLONE_NEWPID : Nat := 0x20000000

/-- Errno `EINVAL` of `asm-generic/errno-base.h`: `22`. -/
def linux_EINVAL : Int := 22

/-- The cast of `ERR_PTR` in `linux/err.h`, `(void *) error`, on a 64-bit
machine. -/
def linux_ERR_PTR (error : Int) : Nat := (error % 2 ^ 64).toNat

end PidNs

/-! # Theorems -/

namespace IrqDesc

/-- Reading back the address just written yields the written descriptor. -/
theorem deref_store_same (k : Kernel) (p : Nat) (d : irq_desc) (hp : p ≠ 0) :
    deref (store k p d) p = some d := by
  simp [deref, store, hp]

/-- A write at `p` is invisible at every other address. -/
theorem mem_store_other (k : Kernel) (p q : Nat) (d : irq_desc) (hq : q ≠ p) :
    (store k p d).mem q = k.mem q := by
  simp [store, hq]

/-- A pointer that can be dereferenced is not `NULL`. -/
theorem ne_zero_of_deref {k : Kernel} {p : Nat} {d : irq_desc}
    (h : deref k p = some d) : p ≠ 0 := by
  intro hp
  simp [deref, hp] at h

/-- C1: for every interrupt number and every descriptor with an installed
(non-`NULL`) flow handler, `generic_handle_irq_desc(irq, desc)` returns
having made exactly one indirect call, to the descriptor's current
`handle_irq`, with the arguments `(irq, desc)`; it calls nothing else,
and the state it returns in is the state that handler's body leaves when
run with `(irq, desc)` from the entry state. -/
theorem generic_handle_irq_desc_calls_handler_once
    (flow : FlowBodies) (irq desc : Nat) (k : Kernel) (d : irq_desc)
    (hd : deref k desc = some d) (hh : d.handle_irq ≠ 0) :
    ∃ calls k1, generic_handle_irq_desc flow irq desc k = some (calls, k1) ∧
      k1 = flow d.handle_irq irq desc k ∧
      calls.length = 1 ∧
      calls = [{ handler := d.handle_irq, irq := irq, desc := desc }] ∧
      ∀ c ∈ calls, c.handler = d.handle_irq ∧ c.irq = irq ∧ c.desc = desc := by
  refine ⟨[⟨d.handle_irq, irq, desc⟩], flow d.handle_irq irq desc k, ?_, rfl, rfl, rfl, ?_⟩
  · simp [generic_handle_irq_desc, hd, hh]
  · intro c hc
    simp only [List.mem_singleton] at hc
    subst hc
    exact ⟨rfl, rfl, rfl⟩

/-- Witness of C1 on the sample kernel with counting handlers: interrupt
`5` dispatched on the descriptor at `4096` calls handler `7` once and
returns in the state that handler leaves. -/
theorem generic_handle_irq_desc_calls_handler_once_witness :
    deref sample_kernel 4096 = some sample_desc ∧ sample_desc.handle_irq ≠ 0 ∧
    ∃ calls k1, generic_handle_irq_desc counting_flow 5 4096 sample_kernel
        = some (calls, k1) ∧
      k1 = counting_flow sample_desc.handle_irq 5 4096 sample_kernel ∧
      calls.length = 1 ∧
      calls = [{ handler := sample_desc.handle_irq, irq := 5, desc := 4096 }] ∧
      ∀ c ∈ calls, c.handler = sample_desc.handle_irq ∧ c.irq = 5 ∧ c.desc = 4096 :=
  ⟨rfl, by decide,
    generic_handle_irq_desc_calls_handler_once counting_flow 5 4096 sample_kernel sample_desc
      rfl (by decide)⟩

/-- C2 as stated fails: on the sample kernel, with a flow handler that
returns at once, dispatching interrupt `5` returns with the hit counter
of CPU `0` still at its entry value `0`, not at `1`. -/
theorem generic_handle_irq_desc_increments_nothing :
    kstat_slot sample_kernel 4096 0 = some 0 ∧
    ∃ calls k1, generic_handle_irq_desc idle_flow 5 4096 sample_kernel = some (calls, k1) ∧
      calls = [{ handler := 7, irq := 5, desc := 4096 }] ∧
      kstat_slot k1 4096 0 = some 0 ∧
      kstat_slot k1 4096 0 ≠ some (0 + 1) := by
  refine ⟨rfl, [⟨7, 5, 4096⟩], sample_kernel, rfl, rfl, rfl, ?_⟩
  decide

/-- C2, amended: `generic_handle_irq_desc(irq, desc)` writes nothing
itself. The flow handler runs on the entry state, so it sees every hit
counter at its entry value, and the state after the dispatch is exactly
the state the handler leaves: when the handler never changes a hit
counter, no hit counter changes across the dispatch. -/
theorem generic_handle_irq_desc_runs_handler_on_entry_state
    (flow : FlowBodies) (irq desc : Nat) (k : Kernel) (d : irq_desc)
    (hd : deref k desc = some d) (hh : d.handle_irq ≠ 0) :
    ∃ calls k1, generic_handle_irq_desc flow irq desc k = some (calls, k1) ∧
      k1 = flow d.handle_irq irq desc k ∧
      ((∀ k0 p cpu, kstat_slot (flow d.handle_irq irq desc k0) p cpu = kstat_slot k0 p cpu) →
        ∀ p cpu, kstat_slot k1 p cpu = kstat_slot k p cpu) := by
  refine ⟨[⟨d.handle_irq, irq, desc⟩], flow d.handle_irq irq desc k, ?_, rfl, ?_⟩
  · simp [generic_handle_irq_desc, hd, hh]
  · intro h p cpu
    exact h k p cpu

/-- Witness of the amended C2 on the sample kernel. -/
theorem generic_handle_irq_desc_runs_handler_on_entry_state_witness :
    deref sample_kernel 4096 = some sample_desc ∧ sample_desc.handle_irq ≠ 0 ∧
    ∃ calls k1, generic_handle_irq_desc idle_flow 5 4096 sample_kernel = some (calls, k1) ∧
      k1 = idle_flow sample_desc.handle_irq 5 4096 sample_kernel ∧
      ((∀ k0 p cpu,
          kstat_slot (idle_flow sample_desc.handle_irq 5 4096 k0) p cpu = kstat_slot k0 p cpu) →
        ∀ p cpu, kstat_slot k1 p cpu = kstat_slot sample_kernel p cpu) :=
  ⟨rfl, by decide,
    generic_handle_irq_desc_runs_handler_on_entry_state idle_flow 5 4096 sample_kernel
      sample_desc rfl (by decide)⟩

/-- C3: when the translator cannot convert `hwirq` in a (non-`NULL`)
domain, `handle_domain_irq(domain, hwirq, regs)` returns `-EINVAL`, makes
no handler call and leaves the whole state, hence every hit counter of
every descriptor, unchanged. -/
theorem handle_domain_irq_unmapped
    (EINVAL : Int) (translate : Nat → Nat → Option Nat) (flow : FlowBodies)
    (cpu domain hwirq regs : Nat) (k : Kernel)
    (hdom : domain ≠ 0) (hmiss : translate domain hwirq = none) :
    ∃ ret calls k1,
      handle_domain_irq (__handle_domain_irq EINVAL translate flow cpu) domain hwirq regs k
        = some (ret, calls, k1) ∧
      ret = -EINVAL ∧ calls = [] ∧ k1 = k ∧
      ∀ p cpu1, kstat_slot k1 p cpu1 = kstat_slot k p cpu1 := by
  refine ⟨-EINVAL, [], k, ?_, rfl, rfl, rfl, fun _ _ => rfl⟩
  simp [handle_domain_irq, __handle_domain_irq, hdom, hmiss]

/-- Witness of C3: hardware line `33` of domain `1` is unmapped in the
sample translator. -/
theorem handle_domain_irq_unmapped_witness :
    (1 : Nat) ≠ 0 ∧ sample_translate 1 33 = none ∧
    ∃ ret calls k1,
      handle_domain_irq (__handle_domain_irq 22 sample_translate idle_flow 0) 1 33 0
        sample_kernel = some (ret, calls, k1) ∧
      ret = -22 ∧ calls = [] ∧ k1 = sample_kernel ∧
      ∀ p cpu1, kstat_slot k1 p cpu1 = kstat_slot sample_kernel p cpu1 :=
  ⟨by decide, by decide,
    handle_domain_irq_unmapped 22 sample_translate idle_flow 0 1 33 0 sample_kernel
      (by decide) (by decide)⟩

/-- C4: `handle_domain_irq(domain, hwirq, regs)` is
`__handle_domain_irq(domain, hwirq, true, regs)`, whatever the external
function does: the lookup is always requested, `domain`, `hwirq` and
`regs` are passed through, and the inner result is returned as it is; in
particular so for the modelled `__handle_domain_irq`, with its return
value, calls, final state or fault. -/
theorem handle_domain_irq_eq_lookup_true :
    (∀ (α : Type) (inner : Nat → Nat → Bool → Nat → α) (domain hwirq regs : Nat),
      handle_domain_irq inner domain hwirq regs = inner domain hwirq true regs) ∧
    ∀ (EINVAL : Int) (translate : Nat → Nat → Option Nat) (flow : FlowBodies)
      (cpu domain hwirq regs : Nat) (k : Kernel),
      handle_domain_irq (__handle_domain_irq EINVAL translate flow cpu) domain hwirq regs k
        = __handle_domain_irq EINVAL translate flow cpu domain hwirq true regs k :=
  ⟨fun _ _ _ _ _ => rfl, fun _ _ _ _ _ _ _ _ => rfl⟩

/-- C5: for an interrupt whose descriptor exists, `irq_has_action(irq)`
returns `1` when the head of the action chain is not `NULL` (the chain is
non-empty) and `0` when it is `NULL`, and the state, hence the
descriptor, is unchanged. -/
theorem irq_has_action_iff_chain_nonempty
    (irq : Nat) (k : Kernel) (d : irq_desc)
    (hd : deref k (irq_to_desc k irq) = some d) :
    ∃ ret k1, irq_has_action irq k = some (ret, k1) ∧
      (d.action ≠ 0 → ret = 1) ∧ (d.action = 0 → ret = 0) ∧
      k1 = k ∧ deref k1 (irq_to_desc k1 irq) = some d := by
  by_cases ha : d.action = 0
  · exact ⟨0, k, by simp [irq_has_action, hd, ha], fun h => absurd ha h, fun _ => rfl, rfl, hd⟩
  · exact ⟨1, k, by simp [irq_has_action, hd, ha], fun _ => rfl, fun h => absurd h ha, rfl, hd⟩

/-- Witness of C5: interrupt `5` of the sample kernel has an action. -/
theorem irq_has_action_iff_chain_nonempty_witness :
    deref sample_kernel (irq_to_desc sample_kernel 5) = some sample_desc ∧
    ∃ ret k1, irq_has_action 5 sample_kernel = some (ret, k1) ∧
      (sample_desc.action ≠ 0 → ret = 1) ∧ (sample_desc.action = 0 → ret = 0) ∧
      k1 = sample_kernel ∧ deref k1 (irq_to_desc k1 5) = some sample_desc :=
  ⟨rfl, irq_has_action_iff_chain_nonempty 5 sample_kernel sample_desc rfl⟩

/-- C6: for an interrupt whose descriptor exists,
`__irq_set_chip_handler_name_locked(irq, chip, handler, name)` returns
with `irq_data.chip = chip`, `handle_irq = handler` and `name = name` in
that descriptor; putting the three old values back gives the old
descriptor, so no other member changed (`parent_irq` and `owner` in
particular); every other address of the descriptor storage and the
descriptor table are unchanged. -/
theorem irq_set_chip_handler_name_locked_frame
    (irq chip handler name : Nat) (k : Kernel) (d : irq_desc)
    (hd : deref k (irq_to_desc k irq) = some d) :
    ∃ k1 d1, __irq_set_chip_handler_name_locked irq chip handler name k = some k1 ∧
      deref k1 (irq_to_desc k irq) = some d1 ∧
      d1.irq_data.chip = chip ∧ d1.handle_irq = handler ∧ d1.name = name ∧
      d1.parent_irq = d.parent_irq ∧ d1.owner = d.owner ∧
      { d1 with irq_data := { d1.irq_data with chip := d.irq_data.chip },
                handle_irq := d.handle_irq, name := d.name } = d ∧
      (∀ q, q ≠ irq_to_desc k irq → k1.mem q = k.mem q) ∧
      k1.table = k.table := by
  have hp := ne_zero_of_deref hd
  let d1 : irq_desc :=
    { d with irq_data := { d.irq_data with chip := chip }, handle_irq := handler, name := name }
  refine ⟨store k (irq_to_desc k irq) d1, d1, ?_, deref_store_same k _ d1 hp,
    rfl, rfl, rfl, rfl, rfl, rfl, ?_, rfl⟩
  · simp only [__irq_set_chip_handler_name_locked, hd]
    rfl
  · intro q hq
    exact mem_store_other k _ q d1 hq

/-- Witness of C6 on the sample kernel. -/
theorem irq_set_chip_handler_name_locked_frame_witness :
    deref sample_kernel (irq_to_desc sample_kernel 5) = some sample_desc ∧
    ∃ k1 d1, __irq_set_chip_handler_name_locked 5 21 9 501 sample_kernel = some k1 ∧
      deref k1 (irq_to_desc sample_kernel 5) = some d1 ∧
      d1.irq_data.chip = 21 ∧ d1.handle_irq = 9 ∧ d1.name = 501 ∧
      d1.parent_irq = sample_desc.parent_irq ∧ d1.owner = sample_desc.owner ∧
      { d1 with irq_data := { d1.irq_data with chip := sample_desc.irq_data.chip },
                handle_irq := sample_desc.handle_irq, name := sample_desc.name }
        = sample_desc ∧
      (∀ q, q ≠ irq_to_desc sample_kernel 5 → k1.mem q = sample_kernel.mem q) ∧
      k1.table = sample_kernel.table :=
  ⟨rfl, irq_set_chip_handler_name_locked_frame 5 21 9 501 sample_kernel sample_desc rfl⟩

/-- C7: for an interrupt whose descriptor exists and a (non-`NULL`)
handler `h`, `__irq_set_handler_locked(irq, h)` returns, and the next
`generic_handle_irq_desc` on that descriptor makes exactly one call, to
`h`, and returns in the state the body of `h` leaves when run from the
state after the set; in the descriptor only `handle_irq` changed (chip and name in
particular are kept), and every other address of the descriptor storage,
hence the flow handler of every other descriptor, is unchanged. -/
theorem irq_set_handler_locked_then_dispatch
    (flow : FlowBodies) (irq irq2 h : Nat) (k : Kernel) (d : irq_desc)
    (hd : deref k (irq_to_desc k irq) = some d) (hh : h ≠ 0) :
    ∃ k1 d1, __irq_set_handler_locked irq h k = some k1 ∧
      generic_handle_irq_desc flow irq2 (irq_to_desc k irq) k1
        = some ([{ handler := h, irq := irq2, desc := irq_to_desc k irq }],
            flow h irq2 (irq_to_desc k irq) k1) ∧
      deref k1 (irq_to_desc k irq) = some d1 ∧
      d1.irq_data.chip = d.irq_data.chip ∧ d1.name = d.name ∧
      { d1 with handle_irq := d.handle_irq } = d ∧
      (∀ q, q ≠ irq_to_desc k irq → k1.mem q = k.mem q) ∧
      (∀ q e, q ≠ irq_to_desc k irq → deref k q = some e →
        ∃ e1, deref k1 q = some e1 ∧ e1.handle_irq = e.handle_irq) ∧
      k1.table = k.table := by
  have hp := ne_zero_of_deref hd
  let d1 : irq_desc := { d with handle_irq := h }
  have hs : deref (store k (irq_to_desc k irq) d1) (irq_to_desc k irq) = some d1 :=
    deref_store_same k _ d1 hp
  have hh1 : d1.handle_irq ≠ 0 := hh
  refine ⟨store k (irq_to_desc k irq) d1, d1, ?_, ?_, hs, rfl, rfl, rfl, ?_, ?_, rfl⟩
  · simp only [__irq_set_handler_locked, hd]
  · simp only [generic_handle_irq_desc, hs, hh1, if_false]
  · intro q hq
    exact mem_store_other k _ q d1 hq
  · intro q e hq he
    refine ⟨e, ?_, rfl⟩
    have hq0 := ne_zero_of_deref he
    simp only [deref, hq0, if_false] at he ⊢
    rw [mem_store_other k _ q _ hq]
    exact he

/-- Witness of C7: handler `9` installed for interrupt `5` of the sample
kernel is the one the next dispatch calls. -/
theorem irq_set_handler_locked_then_dispatch_witness :
    deref sample_kernel (irq_to_desc sample_kernel 5) = some sample_desc ∧ (9 : Nat) ≠ 0 ∧
    ∃ k1 d1, __irq_set_handler_locked 5 9 sample_kernel = some k1 ∧
      generic_handle_irq_desc counting_flow 5 (irq_to_desc sample_kernel 5) k1
        = some ([{ handler := 9, irq := 5, desc := irq_to_desc sample_kernel 5 }],
            counting_flow 9 5 (irq_to_desc sample_kernel 5) k1) ∧
      deref k1 (irq_to_desc sample_kernel 5) = some d1 ∧
      d1.irq_data.chip = sample_desc.irq_data.chip ∧ d1.name = sample_desc.name ∧
      { d1 with handle_irq := sample_desc.handle_irq } = sample_desc ∧
      (∀ q, q ≠ irq_to_desc sample_kernel 5 → k1.mem q = sample_kernel.mem q) ∧
      (∀ q e, q ≠ irq_to_desc sample_kernel 5 → deref sample_kernel q = some e →
        ∃ e1, deref k1 q = some e1 ∧ e1.handle_irq = e.handle_irq) ∧
      k1.table = sample_kernel.table :=
  ⟨rfl, by decide,
    irq_set_handler_locked_then_dispatch counting_flow 5 5 9 sample_kernel sample_desc
      rfl (by decide)⟩

end IrqDesc

namespace PidNs

/-- Under the no-overflow conditions the wrapped `unsigned long`
numerator of `PIDMAP_ENTRIES` is the mathematical
`PID_MAX_LIMIT + PAGE_SIZE * 8 - 1`. -/
theorem PIDMAP_ENTRIES_eq_div (w PAGE_SIZE PID_MAX_LIMIT : Nat)
    (hl : 0 < PID_MAX_LIMIT) (hb : PAGE_SIZE * 8 < 2 ^ w)
    (hs : PID_MAX_LIMIT + PAGE_SIZE * 8 - 1 < 2 ^ w) :
    PIDMAP_ENTRIES w PAGE_SIZE PID_MAX_LIMIT
      = (PID_MAX_LIMIT + PAGE_SIZE * 8 - 1) / (PAGE_SIZE * 8) := by
  have hB : BITS_PER_PAGE w PAGE_SIZE = PAGE_SIZE * 8 := Nat.mod_eq_of_lt hb
  unfold PIDMAP_ENTRIES
  rw [hB]
  congr 1
  rcases Nat.lt_or_ge (PID_MAX_LIMIT + PAGE_SIZE * 8) (2 ^ w) with h | h
  · rw [Nat.mod_eq_of_lt h]
    have e : PID_MAX_LIMIT + PAGE_SIZE * 8 + 2 ^ w - 1
        = (PID_MAX_LIMIT + PAGE_SIZE * 8 - 1) + 2 ^ w := by omega
    rw [e, Nat.add_mod_right, Nat.mod_eq_of_lt hs]
  · have e : PID_MAX_LIMIT + PAGE_SIZE * 8 = 2 ^ w := by omega
    rw [e, Nat.mod_self, Nat.zero_add]
    have hpos : 0 < 2 ^ w := by omega
    rw [Nat.mod_eq_of_lt (by omega)]

/-- C9: for positive `PAGE_SIZE` and `PID_MAX_LIMIT` whose bit count and
rounded-up sum fit in an `unsigned long`, `PIDMAP_ENTRIES` pages cover
every pid, one page fewer does not, and no smaller page count covers
them; `BITS_PER_PAGE` is `PAGE_SIZE * 8`. -/
theorem PIDMAP_ENTRIES_is_least_cover (w PAGE_SIZE PID_MAX_LIMIT : Nat)
    (hp : 0 < PAGE_SIZE) (hl : 0 < PID_MAX_LIMIT) (hb : PAGE_SIZE * 8 < 2 ^ w)
    (hs : PID_MAX_LIMIT + PAGE_SIZE * 8 - 1 < 2 ^ w) :
    BITS_PER_PAGE w PAGE_SIZE = PAGE_SIZE * 8 ∧
    PIDMAP_ENTRIES w PAGE_SIZE PID_MAX_LIMIT * BITS_PER_PAGE w PAGE_SIZE ≥ PID_MAX_LIMIT ∧
    (PIDMAP_ENTRIES w PAGE_SIZE PID_MAX_LIMIT - 1) * BITS_PER_PAGE w PAGE_SIZE
      < PID_MAX_LIMIT ∧
    ∀ n, PID_MAX_LIMIT ≤ n * BITS_PER_PAGE w PAGE_SIZE →
      PIDMAP_ENTRIES w PAGE_SIZE PID_MAX_LIMIT ≤ n := by
  have hB : BITS_PER_PAGE w PAGE_SIZE = PAGE_SIZE * 8 := Nat.mod_eq_of_lt hb
  have hE := PIDMAP_ENTRIES_eq_div w PAGE_SIZE PID_MAX_LIMIT hl hb hs
  have hBpos : 0 < PAGE_SIZE * 8 := by omega
  rw [hB, hE]
  generalize PAGE_SIZE * 8 = B at *
  generalize hx : PID_MAX_LIMIT + B - 1 = x
  have hlow : x / B * B ≤ x := Nat.div_mul_le_self x B
  have hhigh : x < (x / B + 1) * B :=
    (Nat.div_lt_iff_lt_mul hBpos).1 (Nat.lt_succ_self (x / B))
  have hge1 : 1 ≤ x / B := (Nat.le_div_iff_mul_le hBpos).2 (by omega)
  refine ⟨rfl, ?_, ?_, ?_⟩
  · have : (x / B + 1) * B = x / B * B + B := by ring
    show PID_MAX_LIMIT ≤ x / B * B
    omega
  · have : (x / B - 1) * B + B = x / B * B := by
      have : x / B - 1 + 1 = x / B := by omega
      calc (x / B - 1) * B + B = (x / B - 1 + 1) * B := by ring
        _ = x / B * B := by rw [this]
    omega
  · intro n hn
    have : x / B < n + 1 := by
      rw [Nat.div_lt_iff_lt_mul hBpos]
      have : (n + 1) * B = n * B + B := by ring
      omega
    omega

/-- Witness of C9: 4 KiB pages and `PID_MAX_LIMIT = 4194304` on a 64-bit
machine. -/
theorem PIDMAP_ENTRIES_is_least_cover_witness :
    BITS_PER_PAGE 64 4096 = 4096 * 8 ∧
    PIDMAP_ENTRIES 64 4096 4194304 * BITS_PER_PAGE 64 4096 ≥ 4194304 ∧
    (PIDMAP_ENTRIES 64 4096 4194304 - 1) * BITS_PER_PAGE 64 4096 < 4194304 ∧
    ∀ n, 4194304 ≤ n * BITS_PER_PAGE 64 4096 → PIDMAP_ENTRIES 64 4096 4194304 ≤ n :=
  PIDMAP_ENTRIES_is_least_cover 64 4096 4194304 (by decide) (by decide) (by norm_num)
    (by norm_num)

/-- C8: in the build without PID-namespace support, for every `flags`,
`user_ns` and `ns`, `copy_pid_ns` returns `ERR_PTR(-EINVAL)` when the
`CLONE_NEWPID` bit is set in `flags` and `ns` itself otherwise, and never
modifies the namespace storage; for `ns` the address of a namespace, which
is never the error value `ERR_PTR(-EINVAL)`, the result is
`ERR_PTR(-EINVAL)` if and only if the bit is set. -/
theorem copy_pid_ns_stub_result
    (CLONE_NEWPID : Nat) (ERR_PTR : Int → Nat) (EINVAL : Int)
    (flags user_ns ns : Nat) (m : PidMem) :
    (flags &&& CLONE_NEWPID ≠ 0 →
      (copy_pid_ns CLONE_NEWPID ERR_PTR EINVAL flags user_ns ns m).1 = ERR_PTR (-EINVAL)) ∧
    (flags &&& CLONE_NEWPID = 0 →
      (copy_pid_ns CLONE_NEWPID ERR_PTR EINVAL flags user_ns ns m).1 = ns) ∧
    (copy_pid_ns CLONE_NEWPID ERR_PTR EINVAL flags user_ns ns m).2 = m ∧
    (ns ≠ ERR_PTR (-EINVAL) →
      ((copy_pid_ns CLONE_NEWPID ERR_PTR EINVAL flags user_ns ns m).1 = ERR_PTR (-EINVAL)
        ↔ flags &&& CLONE_NEWPID ≠ 0)) := by
  have hr : copy_pid_ns CLONE_NEWPID ERR_PTR EINVAL flags user_ns ns m
      = (if flags &&& CLONE_NEWPID ≠ 0 then ERR_PTR (-EINVAL) else ns, m) := rfl
  rw [hr]
  by_cases hf : flags &&& CLONE_NEWPID = 0
  · rw [if_neg (not_not.mpr hf)]
    exact ⟨fun h => absurd hf h, fun _ => rfl, rfl,
      fun hns => ⟨fun h => absurd h hns, fun h => absurd hf h⟩⟩
  · rw [if_pos hf]
    exact ⟨fun _ => rfl, fun h => absurd h hf, rfl, fun _ => ⟨fun _ => hf, fun _ => rfl⟩⟩

/-- Witness of C8: `CLONE_NEWPID` requested on the sample namespace at
`12288`. -/
theorem copy_pid_ns_stub_result_witness :
    (12288 : Nat) ≠ linux_ERR_PTR (-linux_EINVAL) ∧
    (0x20000000 : Nat) &&& linux_CLONE_NEWPID ≠ 0 ∧
    (copy_pid_ns linux_CLONE_NEWPID linux_ERR_PTR linux_EINVAL 0x20000000 0 12288
        sample_mem).1 = linux_ERR_PTR (-linux_EINVAL) ∧
    ((copy_pid_ns linux_CLONE_NEWPID linux_ERR_PTR linux_EINVAL 0x20000000 0 12288
        sample_mem).1 = linux_ERR_PTR (-linux_EINVAL)
      ↔ (0x20000000 : Nat) &&& linux_CLONE_NEWPID ≠ 0) :=
  ⟨by decide, by decide,
    (copy_pid_ns_stub_result linux_CLONE_NEWPID linux_ERR_PTR linux_EINVAL 0x20000000 0
      12288 sample_mem).1 (by decide),
    (copy_pid_ns_stub_result linux_CLONE_NEWPID linux_ERR_PTR linux_EINVAL 0x20000000 0
      12288 sample_mem).2.2.2 (by decide)⟩

/-- C10: for every namespace `ns` (a mapped, non-`NULL` address),
`get_pid_ns(ns)` returns `ns` in both configurations. With
`CONFIG_PID_NS` the state after is the state of one `kref_get` on `ns`
when `ns` is not `init_pid_ns`: the counter of `ns` went up by one and no
other address changed; the record at `init_pid_ns` is never changed.
Without `CONFIG_PID_NS` the state is returned as it was. -/
theorem get_pid_ns_returns_ns_one_reference
    (init_pid_ns ns : Nat) (m : PidMem) (n : pid_namespace)
    (hnz : ns ≠ 0) (hn : m ns = some n) :
    get_pid_ns false init_pid_ns ns m = some (ns, m) ∧
    ∃ m1, get_pid_ns true init_pid_ns ns m = some (ns, m1) ∧
      m1 init_pid_ns = m init_pid_ns ∧
      (ns = init_pid_ns → m1 = m) ∧
      (ns ≠ init_pid_ns →
        kref_get ns m = some m1 ∧
        m1 ns = some { n with kref := (n.kref + 1) % 2 ^ 32 } ∧
        (n.kref + 1 < 2 ^ 32 → (m1 ns).map pid_namespace.kref = some (n.kref + 1)) ∧
        ∀ q, q ≠ ns → m1 q = m q) := by
  refine ⟨by simp [get_pid_ns], ?_⟩
  by_cases hi : ns = init_pid_ns
  · exact ⟨m, by simp [get_pid_ns, hi], rfl, fun _ => rfl, fun h => absurd hi h⟩
  · have hk : kref_get ns m
        = some (fun q => if q = ns then some { n with kref := (n.kref + 1) % 2 ^ 32 } else m q) := by
      simp [kref_get, hnz, hn]
    refine ⟨_, by simp [get_pid_ns, hi, hk], ?_, fun h => absurd h hi, fun _ => ⟨hk, ?_, ?_, ?_⟩⟩
    · have : init_pid_ns ≠ ns := fun h => hi h.symm
      simp only [this, if_false]
    · simp only [if_true]
    · intro hlt
      simp only [if_true, Option.map_some', Nat.mod_eq_of_lt hlt]
    · intro q hq
      simp only [hq, if_false]

/-- Witness of C10: the sample namespace at `12288`, with the initial
namespace at `8192`. -/
theorem get_pid_ns_returns_ns_one_reference_witness :
    (12288 : Nat) ≠ 0 ∧ sample_mem 12288 = some sample_ns ∧
    get_pid_ns false 8192 12288 sample_mem = some (12288, sample_mem) ∧
    ∃ m1, get_pid_ns true 8192 12288 sample_mem = some (12288, m1) ∧
      m1 8192 = sample_mem 8192 ∧
      ((12288 : Nat) = 8192 → m1 = sample_mem) ∧
      ((12288 : Nat) ≠ 8192 →
        kref_get 12288 sample_mem = some m1 ∧
        m1 12288 = some { sample_ns with kref := (sample_ns.kref + 1) % 2 ^ 32 } ∧
        (sample_ns.kref + 1 < 2 ^ 32 →
          (m1 12288).map pid_namespace.kref = some (sample_ns.kref + 1)) ∧
        ∀ q, q ≠ 12288 → m1 q = sample_mem q) :=
  ⟨by decide, rfl,
    get_pid_ns_returns_ns_one_reference 8192 12288 sample_mem sample_ns (by decide) rfl⟩

end PidNs
